import Mathlib

/-!
Verification of the Beam Eye Tracker SDK client-side tracking-data
distribution engine, as shipped in this repository
(`include/eyeware/beam_eye_tracker.h`, `include/eyeware/beam_eye_tracker_c.h`,
`include/eyeware/beam_eye_tracker/types.h`, and the `cpp/samples` tree).

Numeric conventions of the shallow embedding:
* `double`/`float` scalar channels are modelled as `ℚ` (every comparison and
  arithmetic operation the claims rely on is exact at the inputs considered);
* `int32_t` screen coordinates are modelled as `ℤ`;
* `uint64_t` listener handles are modelled as `ℕ`.

The repository contains only the public headers and samples of the SDK: the
`API::Impl` translation unit is not under version control here.  Components
whose behaviour is fixed by the repository's own specification but whose
implementation file is missing are modelled from the spec and marked as such
in their doc comments.
-/

namespace BeamEyeTracker

/-- Timestamp type for tracking data (`EW_BET_Timestamp` in `types.h`):
seconds since tracking started, a C `double`, modelled as `ℚ`. -/
abbrev Timestamp := ℚ

/-- Sentinel timestamp `EW_BET_NULL_DATA_TIMESTAMP`, defined in `types.h` as
`(EW_BET_Timestamp)(-1.0)`; the double `-1.0` is exactly representable, so the
rational `-1` is its faithful image. -/
def NULL_DATA_TIMESTAMP : Timestamp := -1

/-- Listener handle type `TRACKING_LISTENER_HANDLE` (`uint64_t` in
`beam_eye_tracker.h`), modelled as `ℕ`. -/
abbrev TRACKING_LISTENER_HANDLE := ℕ

/-- Invalid listener handle `INVALID_TRACKING_LISTENER_HANDLE = 0` from
`beam_eye_tracker.h`. -/
def INVALID_TRACKING_LISTENER_HANDLE : TRACKING_LISTENER_HANDLE := 0

/-- Reception status enum from `types.h`
(`EW_BET_TrackingDataReceptionStatus` / C++ `TrackingDataReceptionStatus`). -/
inductive TrackingDataReceptionStatus where
  | NOT_RECEIVING_TRACKING_DATA
  | RECEIVING_TRACKING_DATA
  | ATTEMPTING_TRACKING_AUTO_START
deriving DecidableEq, Repr

/-- Screen point `EW_BET_Point` from `types.h`: two `int32_t` coordinates. -/
structure Point where
  x : ℤ
  y : ℤ
deriving DecidableEq, Repr

/-- Viewport geometry `EW_BET_ViewportGeometry` from `types.h`: two inclusive
corner points in the unified screen coordinate space. -/
structure ViewportGeometry where
  point_00 : Point
  point_11 : Point
deriving DecidableEq, Repr

/-- Width of a viewport per the inclusive-corner convention documented on
`EW_BET_ViewportGeometry` in `types.h`: `width = point_11.x + 1 - point_00.x`. -/
def ViewportGeometry.width (vg : ViewportGeometry) : ℤ :=
  vg.point_11.x + 1 - vg.point_00.x

/-- Height of a viewport per the inclusive-corner convention documented on
`EW_BET_ViewportGeometry` in `types.h`: `height = point_11.y + 1 - point_00.y`. -/
def ViewportGeometry.height (vg : ViewportGeometry) : ℤ :=
  vg.point_11.y + 1 - vg.point_00.y

/-- Set of x-columns of the screen covered by the viewport rectangle, both
corner columns included (the corners are documented as part of the border). -/
def ViewportGeometry.coveredColumns (vg : ViewportGeometry) : Finset ℤ :=
  Finset.Icc vg.point_00.x vg.point_11.x

/-- Set of y-rows of the screen covered by the viewport rectangle, both corner
rows included. -/
def ViewportGeometry.coveredRows (vg : ViewportGeometry) : Finset ℤ :=
  Finset.Icc vg.point_00.y vg.point_11.y

/-- Camera transform `EW_BET_SimCameraTransform3D` from `types.h`: six scalar
channels (roll, pitch, yaw in radians; x, y, z in meters). -/
structure SimCameraTransform3D where
  roll_in_radians : ℚ
  pitch_in_radians : ℚ
  yaw_in_radians : ℚ
  x_in_meters : ℚ
  y_in_meters : ℚ
  z_in_meters : ℚ
deriving DecidableEq, Repr

/-- Zero transform: all six channels zero, as written in the sample's reset
`device_output_camera_local_transform = {0, 0, 0, 0, 0, 0}`. -/
def SimCameraTransform3D.zero : SimCameraTransform3D :=
  ⟨0, 0, 0, 0, 0, 0⟩

/-- Channel-wise scaling of a camera transform by a weight. -/
def SimCameraTransform3D.scale (w : ℚ) (t : SimCameraTransform3D) :
    SimCameraTransform3D :=
  ⟨w * t.roll_in_radians, w * t.pitch_in_radians, w * t.yaw_in_radians,
   w * t.x_in_meters, w * t.y_in_meters, w * t.z_in_meters⟩

/-- Channel-wise sum of two camera transforms. -/
def SimCameraTransform3D.add (a b : SimCameraTransform3D) :
    SimCameraTransform3D :=
  ⟨a.roll_in_radians + b.roll_in_radians,
   a.pitch_in_radians + b.pitch_in_radians,
   a.yaw_in_radians + b.yaw_in_radians,
   a.x_in_meters + b.x_in_meters,
   a.y_in_meters + b.y_in_meters,
   a.z_in_meters + b.z_in_meters⟩

/-- Sim game camera state `EW_BET_SimGameCameraState` from `types.h`: a
timestamp plus the eye-derived and head-derived pose components (the
`struct_version` and `reserved` fields carry no behaviour and are omitted). -/
structure SimGameCameraState where
  timestamp_in_seconds : Timestamp
  eye_tracking_pose_component : SimCameraTransform3D
  head_tracking_pose_component : SimCameraTransform3D
deriving DecidableEq, Repr

/-- Modelled from the spec: the body of
`API::compute_sim_game_camera_transform_parameters` lives in the SDK binary
and is absent from the repository (only its declaration in
`beam_eye_tracker.h` is present).  Spec §4.6: `compute(state, eye_weight,
head_weight) = eye_weight * eye_component + head_weight * head_component`,
applied independently to each of the 6 scalar channels. -/
def compute_sim_game_camera_transform_parameters (state : SimGameCameraState)
    (eye_tracking_weight head_tracking_weight : ℚ) : SimCameraTransform3D :=
  SimCameraTransform3D.add
    (SimCameraTransform3D.scale eye_tracking_weight
      state.eye_tracking_pose_component)
    (SimCameraTransform3D.scale head_tracking_weight
      state.head_tracking_pose_component)

/-- HUD opacity update from
`cpp/samples/game_engine_integration/bet_game_engine_device.h`: asymmetric
linear opacity animation, clamped between `min_opacity = 0.2` and `1.0`.
Rates and clamp bounds are the source constants (`10.0f`, `-1.0f`, `0.2f`). -/
def update_hud_opacity (prev_opacity : ℚ) (looking_at_hud : Bool)
    (delta_time : ℚ) : ℚ :=
  let opacity_rate_on_looking_at_hud : ℚ := 10
  let opacity_rate_on_not_looking_at_hud : ℚ := -1
  let min_opacity : ℚ := 0.2
  let opacity_update_rate :=
    if looking_at_hud then opacity_rate_on_looking_at_hud
    else opacity_rate_on_not_looking_at_hud
  min (max (prev_opacity + opacity_update_rate * delta_time) min_opacity) 1

/-- Four HUD-opacity device outputs of `MyGameEngineBeamEyeTrackerDevice`
(`device_output_*_hud_opacity` fields). -/
structure HudOpacities where
  top_left : ℚ
  top_right : ℚ
  bottom_left : ℚ
  bottom_right : ℚ
deriving DecidableEq, Repr

/-- HUD-opacity portion of `MyGameEngineBeamEyeTrackerDevice::Tick`: each of
the four outputs is advanced by `update_hud_opacity` with its own
looking-at flag and the shared `delta_time`. -/
def tickHudOpacities (s : HudOpacities)
    (looking_tl looking_tr looking_bl looking_br : Bool) (delta_time : ℚ) :
    HudOpacities :=
  ⟨update_hud_opacity s.top_left looking_tl delta_time,
   update_hud_opacity s.top_right looking_tr delta_time,
   update_hud_opacity s.bottom_left looking_bl delta_time,
   update_hud_opacity s.bottom_right looking_br delta_time⟩

/-- Membership of one opacity value in the clamp interval `[0.2, 1]`. -/
def hudOpacityInRange (v : ℚ) : Prop := 0.2 ≤ v ∧ v ≤ 1

/-- All four HUD-opacity outputs lie in the clamp interval. -/
def hudInRange (s : HudOpacities) : Prop :=
  hudOpacityInRange s.top_left ∧ hudOpacityInRange s.top_right ∧
  hudOpacityInRange s.bottom_left ∧ hudOpacityInRange s.bottom_right

/-- Modelled from the spec: the FrameSlot new-data test (spec §4.1,
implemented inside the absent `API::Impl`).  `has_update_since` compares the
stored frame timestamp against the caller's last-seen timestamp using simple
inequality, not sequence order. -/
def hasUpdateSince (stored last_seen_timestamp : Timestamp) : Bool :=
  decide (stored ≠ last_seen_timestamp)

/-- Modelled from the spec: the SyncWaiter primitive
`API::wait_for_new_tracking_state_set` (spec §4.5; its implementation is in
the SDK binary, only the declaration in `beam_eye_tracker.h` is in the
repository).  The execution environment is explicit: `stored` is the frame
timestamp in the slot when the call starts, and `arrivals` is the
time-ordered list of publishes during the call, each a pair of its arrival
time in milliseconds after the call starts and the published frame's
timestamp.  A publish arriving at time `t` can wake the waiter only when
`t < timeout_ms`; the waiter wakes for the first publish whose timestamp
differs from `last_update_timestamp`.  The result pairs the returned boolean
with the final value of the in/out `last_update_timestamp` argument. -/
def wait_for_new_tracking_state_set (stored : Timestamp)
    (arrivals : List (ℕ × Timestamp)) (last_update_timestamp : Timestamp)
    (timeout_ms : ℕ) : Bool × Timestamp :=
  if hasUpdateSince stored last_update_timestamp then (true, stored)
  else
    match arrivals.find?
        (fun a => decide (a.1 < timeout_ms) && hasUpdateSince a.2 last_update_timestamp) with
    | some a => (true, a.2)
    | none => (false, last_update_timestamp)

/-- New tracking data becomes available to a waiter before its timeout: the
slot already differs from the last-seen timestamp, or some publish inside the
timeout window carries a differing timestamp. -/
def newDataAvailable (stored : Timestamp) (arrivals : List (ℕ × Timestamp))
    (last_update_timestamp : Timestamp) (timeout_ms : ℕ) : Prop :=
  stored ≠ last_update_timestamp ∨
    ∃ a ∈ arrivals, a.1 < timeout_ms ∧ a.2 ≠ last_update_timestamp

/-- Events driving the ReceptionStatusTracker (spec §4.2).
`attemptAutoStart` is the only client-driven event; the other four are
Producer-driven connectivity signals. -/
inductive DispatcherEvent where
  | attemptAutoStart
  | producerSuccess
  | producerFailure
  | producerConnected
  | producerDisconnected
deriving DecidableEq, Repr

/-- Modelled from the spec: the ReceptionStatusTracker transition function
(spec §4.2; the tracker lives in the absent `API::Impl`, the repository holds
only the status enum in `types.h` and the getter declaration). -/
def stepStatus : TrackingDataReceptionStatus → DispatcherEvent →
    TrackingDataReceptionStatus
  | .NOT_RECEIVING_TRACKING_DATA, .attemptAutoStart =>
      .ATTEMPTING_TRACKING_AUTO_START
  | .ATTEMPTING_TRACKING_AUTO_START, .producerSuccess =>
      .RECEIVING_TRACKING_DATA
  | .ATTEMPTING_TRACKING_AUTO_START, .producerFailure =>
      .NOT_RECEIVING_TRACKING_DATA
  | .RECEIVING_TRACKING_DATA, .producerDisconnected =>
      .NOT_RECEIVING_TRACKING_DATA
  | .NOT_RECEIVING_TRACKING_DATA, .producerConnected =>
      .RECEIVING_TRACKING_DATA
  | s, _ => s

/-- Initial reception status (spec §4.2): NOT_RECEIVING. -/
def initialStatus : TrackingDataReceptionStatus :=
  .NOT_RECEIVING_TRACKING_DATA

/-- Dispatcher-side state for status notification: the current status plus
the handles of the registered listeners. -/
structure DispatcherState where
  status : TrackingDataReceptionStatus
  listeners : List TRACKING_LISTENER_HANDLE
deriving DecidableEq, Repr

/-- Modelled from the spec: Dispatcher status notification (spec §4.2/§4.4,
implemented inside the absent `API::Impl`).  Processing one event updates the
status; if and only if it changed, every registered listener receives one
`on_tracking_data_reception_status_changed` callback with the new status.
Returns the new state and the list of emitted callbacks in delivery order. -/
def dispatchEvent (s : DispatcherState) (e : DispatcherEvent) :
    DispatcherState ×
      List (TRACKING_LISTENER_HANDLE × TrackingDataReceptionStatus) :=
  let st := stepStatus s.status e
  if st = s.status then ({ s with status := st }, [])
  else ({ s with status := st }, s.listeners.map (fun h => (h, st)))

/-- Processing of a sequence of events by the Dispatcher, concatenating the
status-changed callbacks each event emits, in order. -/
def dispatchRun : DispatcherState → List DispatcherEvent →
    DispatcherState ×
      List (TRACKING_LISTENER_HANDLE × TrackingDataReceptionStatus)
  | s, [] => (s, [])
  | s, e :: es =>
    let r1 := dispatchEvent s e
    let r2 := dispatchRun r1.1 es
    (r2.1, r1.2 ++ r2.2)

/-- ListenerRegistry state (spec §4.3): the registered entries, each a pair
of its handle and an identifier of the listener object it refers to. -/
structure ListenerRegistry where
  entries : List (TRACKING_LISTENER_HANDLE × ℕ)
deriving DecidableEq, Repr

/-- Modelled from the spec: `API::stop_receiving_tracking_data_on_listener`
(spec §4.3; the implementation is in the SDK binary, only the declaration in
`beam_eye_tracker.h` is in the repository).  Unregistering removes the entry
with the given handle; a handle with no entry is a benign no-op, not an
error, so the operation is total and returns the updated registry. -/
def stop_receiving_tracking_data_on_listener (R : ListenerRegistry)
    (listener_handle : TRACKING_LISTENER_HANDLE) : ListenerRegistry :=
  ⟨R.entries.filter (fun e => decide (e.1 ≠ listener_handle))⟩

/-- Handles currently registered in a registry. -/
def ListenerRegistry.handles (R : ListenerRegistry) :
    List TRACKING_LISTENER_HANDLE :=
  R.entries.map Prod.fst

/-- Error taxonomy of the API surface (spec §7): construction-time argument
errors are the only synchronously thrown exceptions. -/
inductive ApiError where
  | invalidArgument
  | runtimeError
deriving DecidableEq, Repr

/-- Client-visible API state for the error-propagation model: reception
status, whether a connection path to the Producer exists, and whether a
recenter request is in flight. -/
structure ApiState where
  status : TrackingDataReceptionStatus
  producerAvailable : Bool
  recentering : Bool
deriving DecidableEq, Repr

/-- Modelled from the spec: the `API` constructor (spec §7; implementation in
the SDK binary).  A malformed friendly name — empty, or exceeding the
documented 200-byte limit — raises `invalid_argument` synchronously; a
well-formed name yields a fresh API state in the initial status.  The
friendly name is modelled as its byte sequence. -/
def API_create (friendly_name : List ℕ) (_vg : ViewportGeometry) :
    Except ApiError ApiState :=
  if friendly_name.length = 0 ∨ 200 < friendly_name.length then
    .error .invalidArgument
  else
    .ok ⟨initialStatus, false, false⟩

/-- Modelled from the spec: `API::attempt_starting_the_beam_eye_tracker`
(spec §7; implementation in the SDK binary).  The attempt is surfaced only
as a status transition — the function returns `void` in the header — so the
model always returns normally (`Except.ok`), with the status advanced by the
client-driven auto-start event. -/
def attempt_starting_the_beam_eye_tracker (s : ApiState) :
    Except ApiError ApiState :=
  .ok { s with status := stepStatus s.status .attemptAutoStart }

/-- Modelled from the spec: `API::recenter_sim_game_camera_start` (spec §4.6
and §7; implementation in the SDK binary).  Producer unavailability is
surfaced as the boolean result `false`, never as an exception, so the model
always returns normally. -/
def recenter_sim_game_camera_start (s : ApiState) :
    Except ApiError (Bool × ApiState) :=
  if s.producerAvailable then .ok (true, { s with recentering := true })
  else .ok (false, s)

/-- Helper: one `update_hud_opacity` step always lands in the clamp
interval `[0.2, 1]`, for any previous opacity, flag and time step. -/
theorem hudOpacityInRange_update (p : ℚ) (l : Bool) (d : ℚ) :
    hudOpacityInRange (update_hud_opacity p l d) := by
  simp only [update_hud_opacity, hudOpacityInRange]
  exact ⟨le_min (le_max_right _ _) (by norm_num), min_le_right _ _⟩

/-- C10: for every previous opacity, looking-at flag and nonnegative time
step, `update_hud_opacity` returns a value in `[0.2, 1]`; consequently each
`Tick` of the game-engine device keeps the four HUD-opacity outputs inside
that interval once they are in it. -/
theorem update_hud_opacity_clamped_spec (prev_opacity : ℚ)
    (looking_at_hud : Bool) (delta_time : ℚ) (hdt : 0 ≤ delta_time) :
    hudOpacityInRange (update_hud_opacity prev_opacity looking_at_hud delta_time) ∧
    (∀ (s : HudOpacities) (ltl ltr lbl lbr : Bool), hudInRange s →
      hudInRange (tickHudOpacities s ltl ltr lbl lbr delta_time)) := by
  refine ⟨hudOpacityInRange_update _ _ _, ?_⟩
  intro s ltl ltr lbl lbr _
  exact ⟨hudOpacityInRange_update _ _ _, hudOpacityInRange_update _ _ _,
    hudOpacityInRange_update _ _ _, hudOpacityInRange_update _ _ _⟩

/-- Witness for C10 at a concrete input: previous opacity `1/2`, looking at
the HUD, time step `0`. -/
theorem update_hud_opacity_clamped_spec_witness :
    (0 : ℚ) ≤ 0 ∧
    hudOpacityInRange (update_hud_opacity (1/2) true 0) ∧
    hudInRange (tickHudOpacities ⟨1, 1, 1, 1⟩ true true true true 0) :=
  ⟨le_refl 0,
   (update_hud_opacity_clamped_spec (1/2) true 0 (le_refl 0)).1,
   (update_hud_opacity_clamped_spec (1/2) true 0 (le_refl 0)).2
     ⟨1, 1, 1, 1⟩ true true true true
     (by constructor <;> constructor <;> norm_num [hudOpacityInRange])⟩

/-- C9: the absent-data timestamp sentinel is the concrete value `-1.0`, the
invalid listener handle is the concrete value `0`, and every genuine
(nonnegative) tracking timestamp differs from the sentinel. -/
theorem null_data_timestamp_sentinel_spec (t : Timestamp) (ht : 0 ≤ t) :
    NULL_DATA_TIMESTAMP = -1 ∧ INVALID_TRACKING_LISTENER_HANDLE = 0 ∧
    t ≠ NULL_DATA_TIMESTAMP := by
  refine ⟨rfl, rfl, fun h => ?_⟩
  rw [h] at ht
  norm_num [NULL_DATA_TIMESTAMP] at ht

/-- Witness for C9 at the concrete timestamp `0`. -/
theorem null_data_timestamp_sentinel_spec_witness :
    (0 : Timestamp) ≤ 0 ∧
    (NULL_DATA_TIMESTAMP = -1 ∧ INVALID_TRACKING_LISTENER_HANDLE = 0 ∧
      (0 : Timestamp) ≠ NULL_DATA_TIMESTAMP) :=
  ⟨le_refl 0, null_data_timestamp_sentinel_spec 0 (le_refl 0)⟩

/-- C8: the viewport's corner points are inclusive — both corner columns and
rows belong to the covered ranges — and the dimensions satisfy
`width = point_11.x + 1 - point_00.x` and `height = point_11.y + 1 -
point_00.y`, i.e. the width/height equal the exact count of covered
columns/rows. -/
theorem viewport_inclusive_corners_spec (vg : ViewportGeometry)
    (hx : vg.point_00.x ≤ vg.point_11.x)
    (hy : vg.point_00.y ≤ vg.point_11.y) :
    vg.point_00.x ∈ vg.coveredColumns ∧ vg.point_11.x ∈ vg.coveredColumns ∧
    vg.point_00.y ∈ vg.coveredRows ∧ vg.point_11.y ∈ vg.coveredRows ∧
    (vg.coveredColumns.card : ℤ) = vg.width ∧
    (vg.coveredRows.card : ℤ) = vg.height ∧
    vg.width = vg.point_11.x + 1 - vg.point_00.x ∧
    vg.height = vg.point_11.y + 1 - vg.point_00.y := by
  refine ⟨?_, ?_, ?_, ?_, ?_, ?_, rfl, rfl⟩
  · exact Finset.mem_Icc.mpr ⟨le_refl _, hx⟩
  · exact Finset.mem_Icc.mpr ⟨hx, le_refl _⟩
  · exact Finset.mem_Icc.mpr ⟨le_refl _, hy⟩
  · exact Finset.mem_Icc.mpr ⟨hy, le_refl _⟩
  · rw [ViewportGeometry.coveredColumns, Int.card_Icc, ViewportGeometry.width]
    exact Int.toNat_of_nonneg (by omega)
  · rw [ViewportGeometry.coveredRows, Int.card_Icc, ViewportGeometry.height]
    exact Int.toNat_of_nonneg (by omega)

/-- Witness for C8 on a concrete full-HD viewport with corners `(0,0)` and
`(1919,1079)`. -/
theorem viewport_inclusive_corners_spec_witness :
    ((0 : ℤ) ≤ 1919 ∧ (0 : ℤ) ≤ 1079) ∧
    ((ViewportGeometry.mk ⟨0, 0⟩ ⟨1919, 1079⟩).coveredColumns.card : ℤ) =
      (ViewportGeometry.mk ⟨0, 0⟩ ⟨1919, 1079⟩).width :=
  ⟨⟨by norm_num, by norm_num⟩,
   (viewport_inclusive_corners_spec ⟨⟨0, 0⟩, ⟨1919, 1079⟩⟩
     (by norm_num) (by norm_num)).2.2.2.2.1⟩

/-- C2: the computed camera transform is the weighted per-channel blend of
the eye and head pose components on all six channels; weights `(1, 1)` give
the raw per-channel sum and weights `(0, 0)` give the zero transform. -/
theorem compute_sim_game_camera_transform_spec (state : SimGameCameraState)
    (eye_tracking_weight head_tracking_weight : ℚ) :
    ((compute_sim_game_camera_transform_parameters state eye_tracking_weight
        head_tracking_weight).roll_in_radians =
        eye_tracking_weight * state.eye_tracking_pose_component.roll_in_radians +
        head_tracking_weight * state.head_tracking_pose_component.roll_in_radians ∧
      (compute_sim_game_camera_transform_parameters state eye_tracking_weight
        head_tracking_weight).pitch_in_radians =
        eye_tracking_weight * state.eye_tracking_pose_component.pitch_in_radians +
        head_tracking_weight * state.head_tracking_pose_component.pitch_in_radians ∧
      (compute_sim_game_camera_transform_parameters state eye_tracking_weight
        head_tracking_weight).yaw_in_radians =
        eye_tracking_weight * state.eye_tracking_pose_component.yaw_in_radians +
        head_tracking_weight * state.head_tracking_pose_component.yaw_in_radians ∧
      (compute_sim_game_camera_transform_parameters state eye_tracking_weight
        head_tracking_weight).x_in_meters =
        eye_tracking_weight * state.eye_tracking_pose_component.x_in_meters +
        head_tracking_weight * state.head_tracking_pose_component.x_in_meters ∧
      (compute_sim_game_camera_transform_parameters state eye_tracking_weight
        head_tracking_weight).y_in_meters =
        eye_tracking_weight * state.eye_tracking_pose_component.y_in_meters +
        head_tracking_weight * state.head_tracking_pose_component.y_in_meters ∧
      (compute_sim_game_camera_transform_parameters state eye_tracking_weight
        head_tracking_weight).z_in_meters =
        eye_tracking_weight * state.eye_tracking_pose_component.z_in_meters +
        head_tracking_weight * state.head_tracking_pose_component.z_in_meters) ∧
    compute_sim_game_camera_transform_parameters state 1 1 =
      SimCameraTransform3D.add state.eye_tracking_pose_component
        state.head_tracking_pose_component ∧
    compute_sim_game_camera_transform_parameters state 0 0 =
      SimCameraTransform3D.zero := by
  refine ⟨⟨rfl, rfl, rfl, rfl, rfl, rfl⟩, ?_, ?_⟩
  · simp [compute_sim_game_camera_transform_parameters,
      SimCameraTransform3D.scale, SimCameraTransform3D.add]
  · simp [compute_sim_game_camera_transform_parameters,
      SimCameraTransform3D.scale, SimCameraTransform3D.add,
      SimCameraTransform3D.zero]

/-- C1: if new tracking data becomes available before the timeout, the wait
returns true and mutates the in/out timestamp to the newly published frame's
timestamp (a timestamp differing from the last-seen one, and equal either to
the slot content at call time or to one of the publishes during the call);
if the timeout elapses with no such data, the wait returns false and leaves
the in/out timestamp unchanged. -/
theorem wait_for_new_tracking_state_set_spec (stored last : Timestamp)
    (arrivals : List (ℕ × Timestamp)) (timeout_ms : ℕ) :
    (newDataAvailable stored arrivals last timeout_ms →
      (wait_for_new_tracking_state_set stored arrivals last timeout_ms).1 = true ∧
      (wait_for_new_tracking_state_set stored arrivals last timeout_ms).2 ≠ last ∧
      ((wait_for_new_tracking_state_set stored arrivals last timeout_ms).2 = stored ∨
        ∃ a ∈ arrivals,
          (wait_for_new_tracking_state_set stored arrivals last timeout_ms).2 = a.2)) ∧
    (¬ newDataAvailable stored arrivals last timeout_ms →
      wait_for_new_tracking_state_set stored arrivals last timeout_ms =
        (false, last)) := by
  by_cases hs : stored = last
  · have hb : hasUpdateSince stored last = false := by
      simp [hasUpdateSince, hs]
    cases hfind : arrivals.find?
        (fun a => decide (a.1 < timeout_ms) && hasUpdateSince a.2 last) with
    | none =>
      have hres : wait_for_new_tracking_state_set stored arrivals last timeout_ms =
          (false, last) := by
        simp [wait_for_new_tracking_state_set, hb, hfind]
      have hnone := List.find?_eq_none.mp hfind
      constructor
      · intro hnew
        rcases hnew with h1 | ⟨a, ha, hlt, hne⟩
        · exact absurd hs h1.elim
        · exact absurd (by simp [hasUpdateSince, hlt, hne]) (hnone a ha)
      · intro _
        exact hres
    | some a =>
      have hp := List.find?_some hfind
      have hmem := List.mem_of_find?_eq_some hfind
      have hne : a.2 ≠ last := by
        have := (Bool.and_eq_true _ _).mp hp
        simpa [hasUpdateSince] using this.2
      have hres : wait_for_new_tracking_state_set stored arrivals last timeout_ms =
          (true, a.2) := by
        simp [wait_for_new_tracking_state_set, hb, hfind]
      constructor
      · intro _
        rw [hres]
        exact ⟨rfl, hne, Or.inr ⟨a, hmem, rfl⟩⟩
      · intro hnot
        have hlt : a.1 < timeout_ms := by
          have := (Bool.and_eq_true _ _).mp hp
          simpa using this.1
        exact absurd (Or.inr ⟨a, hmem, hlt, hne⟩) hnot
  · have hb : hasUpdateSince stored last = true := by
      simp [hasUpdateSince, hs]
    have hres : wait_for_new_tracking_state_set stored arrivals last timeout_ms =
        (true, stored) := by
      simp [wait_for_new_tracking_state_set, hb]
    constructor
    · intro _
      rw [hres]
      exact ⟨rfl, hs, Or.inl rfl⟩
    · intro hnot
      exact absurd (Or.inl hs) hnot

/-- Witness for C1 at a concrete input: slot timestamp `1`, last-seen `0`,
no publishes during the call, timeout `5` milliseconds. -/
theorem wait_for_new_tracking_state_set_spec_witness :
    newDataAvailable 1 [] 0 5 ∧
    (wait_for_new_tracking_state_set 1 [] 0 5).1 = true ∧
    (wait_for_new_tracking_state_set 1 [] 0 5).2 ≠ 0 :=
  have h : newDataAvailable 1 [] 0 5 := Or.inl (by norm_num)
  ⟨h, ((wait_for_new_tracking_state_set_spec 1 0 [] 5).1 h).1,
    ((wait_for_new_tracking_state_set_spec 1 0 [] 5).1 h).2.1⟩

/-- C3: new-data detection is by simple timestamp inequality, not sequence
order.  Concretely, with last-seen timestamp `5`: the detection test rejects
a stored timestamp of `5`; a wait during which a frame with timestamp `5` is
published (as after a Producer timestamp-base reset) times out and returns
false without waking for that frame, while the same wait wakes and returns
true for a published timestamp `6`. -/
theorem timestamp_equality_not_detected_spec :
    hasUpdateSince 5 5 = false ∧
    wait_for_new_tracking_state_set 5 [(2, 5)] 5 1000 = (false, 5) ∧
    wait_for_new_tracking_state_set 5 [(2, 6)] 5 1000 = (true, 6) := by
  refine ⟨by decide, by decide, by decide⟩

/-- C7: a wait with `timeout_ms = 0` is a pure poll — its result is
independent of any Producer activity during the call (no publish can wake
it), and it returns true or false exactly according to whether new data is
already present in the slot when the call starts. -/
theorem wait_timeout_zero_poll_spec (stored last : Timestamp)
    (arrivals arrivals' : List (ℕ × Timestamp)) :
    wait_for_new_tracking_state_set stored arrivals last 0 =
      wait_for_new_tracking_state_set stored arrivals' last 0 ∧
    (wait_for_new_tracking_state_set stored arrivals last 0).1 =
      hasUpdateSince stored last := by
  cases hb : hasUpdateSince stored last with
  | true =>
    constructor <;> simp [wait_for_new_tracking_state_set, hb]
  | false =>
    have hnone : ∀ (l : List (ℕ × Timestamp)),
        l.find? (fun _ => false) = (none : Option (ℕ × Timestamp)) :=
      fun l => List.find?_eq_none.mpr (fun x _ => by simp)
    constructor <;> simp [wait_for_new_tracking_state_set, hb, hnone]

/-- Helper: a status notification fan-out contains no callback for a handle
that is not registered. -/
theorem filter_status_log_eq_nil (st : TrackingDataReceptionStatus)
    (h : ℕ) (L : List ℕ) (hout : h ∉ L) :
    (L.map (fun x => (x, st))).filter (fun p => decide (p.1 = h)) = [] := by
  apply List.filter_eq_nil.mpr
  intro p hp
  rcases List.mem_map.mp hp with ⟨x, hx, rfl⟩
  simp only [decide_eq_true_eq]
  exact fun hxh => hout (hxh ▸ hx)

/-- Helper: with duplicate-free registered handles, a status notification
fan-out delivers exactly one callback to each registered handle. -/
theorem filtered_status_log (st : TrackingDataReceptionStatus) (h : ℕ) :
    ∀ (L : List ℕ), L.Nodup → h ∈ L →
      ((L.map (fun x => (x, st))).filter
        (fun p => decide (p.1 = h))).map Prod.snd = [st] := by
  intro L
  induction L with
  | nil => intro _ hm; cases hm
  | cons a L ih =>
    intro hnd hm
    rcases List.nodup_cons.mp hnd with ⟨hna, hndL⟩
    by_cases hah : a = h
    · subst hah
      rw [List.map_cons, List.filter_cons_of_pos (by simp),
        filter_status_log_eq_nil st a L hna]
      rfl
    · have hm' : h ∈ L := by
        cases hm with
        | head => exact absurd rfl hah
        | tail _ hmem => exact hmem
      rw [List.map_cons, List.filter_cons_of_neg (by simp [hah])]
      exact ih hndL hm'

/-- C5: the reception-status machine starts in NOT_RECEIVING; the only
client-driven transition enters ATTEMPTING_AUTO_START; and in the scenario
attempt-auto-start followed by Producer success the status ends RECEIVING
while every registered listener observes exactly one status-changed callback
per transition, in transition order. -/
theorem reception_status_machine_spec (L : List TRACKING_LISTENER_HANDLE)
    (h : TRACKING_LISTENER_HANDLE) (hnd : L.Nodup) (hm : h ∈ L) :
    initialStatus = .NOT_RECEIVING_TRACKING_DATA ∧
    (∀ s : TrackingDataReceptionStatus,
      stepStatus s .attemptAutoStart ≠ s →
        stepStatus s .attemptAutoStart = .ATTEMPTING_TRACKING_AUTO_START) ∧
    (dispatchRun ⟨initialStatus, L⟩
      [.attemptAutoStart, .producerSuccess]).1.status =
        .RECEIVING_TRACKING_DATA ∧
    (((dispatchRun ⟨initialStatus, L⟩
        [.attemptAutoStart, .producerSuccess]).2.filter
          (fun p => decide (p.1 = h))).map Prod.snd) =
      [.ATTEMPTING_TRACKING_AUTO_START, .RECEIVING_TRACKING_DATA] := by
  refine ⟨rfl, ?_, rfl, ?_⟩
  · intro s hs
    cases s <;> first | rfl | exact absurd rfl hs
  have hrun : (dispatchRun ⟨initialStatus, L⟩
      [.attemptAutoStart, .producerSuccess]).2 =
      L.map (fun x =>
        (x, TrackingDataReceptionStatus.ATTEMPTING_TRACKING_AUTO_START)) ++
      L.map (fun x =>
        (x, TrackingDataReceptionStatus.RECEIVING_TRACKING_DATA)) := by
    simp [dispatchRun, dispatchEvent, stepStatus, initialStatus]
  rw [hrun, List.filter_append, List.map_append,
    filtered_status_log _ h L hnd hm, filtered_status_log _ h L hnd hm]
  rfl

/-- Witness for C5 with the concrete registry `[1, 2]` and listener `1`. -/
theorem reception_status_machine_spec_witness :
    ([1, 2] : List TRACKING_LISTENER_HANDLE).Nodup ∧
    1 ∈ ([1, 2] : List TRACKING_LISTENER_HANDLE) ∧
    (((dispatchRun ⟨initialStatus, [1, 2]⟩
        [.attemptAutoStart, .producerSuccess]).2.filter
          (fun p => decide (p.1 = 1))).map Prod.snd) =
      [.ATTEMPTING_TRACKING_AUTO_START, .RECEIVING_TRACKING_DATA] :=
  ⟨by decide, by decide,
   (reception_status_machine_spec [1, 2] 1 (by decide) (by decide)).2.2.2⟩

/-- C6: unregistering is idempotent and benign on invalid handles — a handle
that is not registered makes unregistration a no-op on the registry, and a
second unregistration of the same handle after the first has no additional
effect and raises no error (the operation is total). -/
theorem unregister_idempotent_spec (R : ListenerRegistry)
    (h : TRACKING_LISTENER_HANDLE) (hout : h ∉ R.handles) :
    stop_receiving_tracking_data_on_listener R h = R ∧
    (∀ S : ListenerRegistry,
      stop_receiving_tracking_data_on_listener
        (stop_receiving_tracking_data_on_listener S h) h =
      stop_receiving_tracking_data_on_listener S h) := by
  constructor
  · cases R with
    | mk entries =>
      simp only [stop_receiving_tracking_data_on_listener,
        ListenerRegistry.mk.injEq]
      apply List.filter_eq_self.mpr
      intro e he
      simp only [decide_eq_true_eq]
      intro heq
      exact hout (List.mem_map.mpr ⟨e, he, heq⟩)
  · intro S
    simp only [stop_receiving_tracking_data_on_listener,
      ListenerRegistry.mk.injEq, List.filter_filter]
    apply List.filter_congr
    intro e _
    simp

/-- Witness for C6 on the concrete registry holding one entry with handle `1`
and the invalid handle `2`. -/
theorem unregister_idempotent_spec_witness :
    (2 : TRACKING_LISTENER_HANDLE) ∉
      (ListenerRegistry.mk [(1, 10)]).handles ∧
    stop_receiving_tracking_data_on_listener ⟨[(1, 10)]⟩ 2 = ⟨[(1, 10)]⟩ :=
  ⟨by decide, (unregister_idempotent_spec ⟨[(1, 10)]⟩ 2 (by decide)).1⟩

/-- C4: with no connection path to the Producer, auto-start and
recenter-start return normally — auto-start surfaces only a status
transition, recenter-start surfaces only the boolean `false` — and only a
construction-time argument error (an over-long friendly name) is reported
synchronously as an exception. -/
theorem producer_unavailable_no_exception_spec (s : ApiState)
    (friendly_name : List ℕ) (vg : ViewportGeometry)
    (hs : s.producerAvailable = false)
    (hname : 200 < friendly_name.length) :
    (attempt_starting_the_beam_eye_tracker s).isOk = true ∧
    recenter_sim_game_camera_start s = .ok (false, s) ∧
    API_create friendly_name vg = .error .invalidArgument := by
  refine ⟨rfl, ?_, ?_⟩
  · simp [recenter_sim_game_camera_start, hs]
  · unfold API_create
    rw [if_pos (Or.inr hname)]

/-- Witness for C4 on a fresh unconnected API state and a 201-byte friendly
name. -/
theorem producer_unavailable_no_exception_spec_witness :
    (ApiState.mk initialStatus false false).producerAvailable = false ∧
    200 < (List.replicate 201 0).length ∧
    recenter_sim_game_camera_start ⟨initialStatus, false, false⟩ =
      .ok (false, ⟨initialStatus, false, false⟩) ∧
    API_create (List.replicate 201 0) ⟨⟨0, 0⟩, ⟨0, 0⟩⟩ =
      .error .invalidArgument :=
  have hlen : 200 < (List.replicate 201 (0 : ℕ)).length := by
    rw [List.length_replicate]
    norm_num
  ⟨rfl, hlen,
   (producer_unavailable_no_exception_spec ⟨initialStatus, false, false⟩
     (List.replicate 201 0) ⟨⟨0, 0⟩, ⟨0, 0⟩⟩ rfl hlen).2.1,
   (producer_unavailable_no_exception_spec ⟨initialStatus, false, false⟩
     (List.replicate 201 0) ⟨⟨0, 0⟩, ⟨0, 0⟩⟩ rfl hlen).2.2⟩

end BeamEyeTracker
